import Mathlib

/-!
Verification of the paginated query execution and response-shaping pipeline
of a Flask/PostgreSQL boilerplate (`app/database/postgres_connector.py`,
`app/utils/pagination_handler.py`, `app/routes.py`, `app/models.py`).

The Python code is shallowly embedded: dynamically-typed scalars become the
inductive `Val`, Python dicts built by `dict(zip(columns, row))` become
association lists built by `dictZip`, pydantic models become structures with
`Option` fields for `None`-able attributes, and Python exceptions become
`Except PyError`.
-/

/-- Dynamically-typed scalar cell value of a database row.  The window
total-count column always carries a `vint`. -/
inductive Val where
  | vint (n : Int)
  | vstr (s : String)
deriving DecidableEq, Repr

/-- Coercion of a cell to a Python int, as done implicitly when the code uses
`rows[0][-1]` in integer arithmetic.  On the paths modelled here the argument
is always a `vint`. -/
def Val.toInt : Val → Int
  | .vint n => n
  | .vstr _ => 0

/-- A Record: one decoded row, a column-name-to-value mapping (Python dict,
insertion ordered). -/
abbrev Record := List (String × Val)

/-- Python dict assignment `d[k] = v`: if the key is present its value is
replaced in place (insertion order kept), otherwise the pair is appended. -/
def dictInsert {α : Type} (d : List (String × α)) (k : String) (v : α) :
    List (String × α) :=
  if d.any (fun p => decide (p.1 = k)) then
    d.map (fun p => if p.1 = k then (k, v) else p)
  else
    d ++ [(k, v)]

/-- Model of Python `dict(zip(columns, row))`, the body of the lambda returned
by `PostgresConnector._row_factory`: pairs are inserted left to right, later
duplicates overwriting earlier ones. -/
def dictZip {α : Type} (columns : List String) (row : List α) :
    List (String × α) :=
  (columns.zip row).foldl (fun d p => dictInsert d p.1 p.2) []

/-- Python dict lookup `d[k]` (as an `Option`): the value stored at key `k`. -/
def dictGet {α : Type} (d : List (String × α)) (k : String) : Option α :=
  (d.find? (fun p => decide (p.1 = k))).map Prod.snd

/-- Python exceptions relevant to the connector: `psycopg2.DatabaseError`
(carrying its message), the builtin `TypeError`, and the builtin
`UnboundLocalError` raised when a local name is read before assignment —
carrying, as Python attaches via `__context__`, the exception that was
propagating when it was raised. -/
inductive PyError where
  | dbError (msg : String)
  | typeError
  | unboundLocal (context : PyError)
deriving DecidableEq, Repr

/-- A parameter bound to a `%s` placeholder of a parameterized SQL query. -/
inductive SqlParam where
  | int (n : Int)
  | str (s : String)
deriving DecidableEq, Repr

/-- models.py `PaginationMeta`: all four fields are Python ints. -/
structure PaginationMeta where
  page : Int
  size : Int
  total_records : Int
  total_pages : Int
deriving DecidableEq, Repr

/-- A deferred call to Flask's `url_for(endpoint, page=..., size=...,
_external=True)`.  URL rendering is delegated to the external routing
collaborator, so the model keeps only the semantic arguments. -/
structure UrlCall where
  endpoint : String
  page : Int
  size : Int
deriving DecidableEq, Repr

/-- models.py `LinksMeta`: the three optional navigation links, each
defaulting to `None`. -/
structure LinksMeta where
  self : Option UrlCall := none
  next : Option UrlCall := none
  prev : Option UrlCall := none
deriving DecidableEq, Repr

/-- models.py `MetaModel`: optional pagination and links blocks. -/
structure MetaModel where
  pagination : Option PaginationMeta := none
  links : Option LinksMeta := none
deriving DecidableEq, Repr

/-- models.py `PaginatedResponse`: `data` and `metadata` both default to
`None` (`data: List[T] | None = None`). -/
structure PaginatedResponse where
  data : Option (List Record) := none
  metadata : Option MetaModel := none
deriving DecidableEq, Repr

/-- Python truthiness-based `x or dflt` on an optional int: `None` and `0`
are falsy. -/
def pyOr (x : Option Int) (dflt : Int) : Int :=
  match x with
  | some v => if v = 0 then dflt else v
  | none => dflt

/-- The total-pages computation of `PostgresConnector._execute_query`
(postgres_connector.py lines 186-188):
`(total_ + page_size - 1) // page_size if page_size else 1`, where the
condition is Python truthiness (`None` and `0` are falsy) and `//` is floor
division (`Int.fdiv`). -/
def totalPages (page_size : Option Int) (total : Int) : Int :=
  match page_size with
  | some ps => if ps = 0 then 1 else Int.fdiv (total + ps - 1) ps
  | none => 1

/-- Literal text the pagination rewrite places before the caller's query
(the f-string of `_execute_query` up to `{query}`). -/
def wrapBefore : String :=
  "\n                WITH t AS (\n                    SELECT *, COUNT(*) OVER () AS total_count\n                    FROM ("

/-- Literal text placed after the caller's query when both `page` and
`page_size` are supplied: closes the subquery and applies LIMIT/OFFSET. -/
def pagAfter : String :=
  ") AS subquery\n                    LIMIT %s OFFSET %s\n                )\n                SELECT * FROM t\n            "

/-- Literal text placed after the caller's query when pagination is not
requested: closes the subquery with no LIMIT/OFFSET clause. -/
def unpagAfter : String :=
  ") AS subquery\n                )\n                SELECT * FROM t\n            "

/-- The SQL text built by `_execute_query`: the paginated wrapper exactly
when `page is not None and page_size is not None`, the plain wrapper
otherwise.  Only the query text is interpolated; the page values go into the
parameter tuple. -/
def buildQuery (q : String) (page page_size : Option Int) : String :=
  match page, page_size with
  | some _, some _ => wrapBefore ++ q ++ pagAfter
  | _, _ => wrapBefore ++ q ++ unpagAfter

/-- The parameter tuple built by `_execute_query`:
`params = (*params, page_size, offset)` with `offset = (page - 1) * page_size`
when both pagination arguments are present, the caller's params unchanged
otherwise. -/
def buildParams (params : List SqlParam) (page page_size : Option Int) :
    List SqlParam :=
  match page, page_size with
  | some p, some ps => params ++ [SqlParam.int ps, SqlParam.int ((p - 1) * ps)]
  | _, _ => params

/-- Number of `%s` placeholders in a character sequence (non-overlapping,
left to right), i.e. the number of parameters psycopg2 will bind in it. -/
def countPS : List Char → Nat
  | '%' :: 's' :: rest => countPS rest + 1
  | _ :: rest => countPS rest
  | [] => 0

/-- Number of `%s` placeholders of a SQL string. -/
def sqlPlaceholders (s : String) : Nat := countPS s.data

/-- Whether `pat` occurs at the start of `s`. -/
def startsW : List Char → List Char → Bool
  | [], _ => true
  | _ :: _, [] => false
  | p :: ps, c :: cs => p = c && startsW ps cs

/-- Whether `pat` occurs anywhere inside `s`. -/
def hasSub (pat : List Char) : List Char → Bool
  | [] => startsW pat []
  | c :: cs => startsW pat (c :: cs) || hasSub pat cs

/-- Server-side evaluation of the wrapped query built by `buildQuery`,
modelled from its SQL text under PostgreSQL semantics: the base query yields
`baseRows`; `COUNT(*) OVER ()` appends the full row count to every row
before LIMIT/OFFSET; LIMIT/OFFSET (applied exactly when both pagination
arguments were supplied, binding `page_size` then `offset`) then keep one
page.  Faithful for `page >= 1`, `page_size >= 0`; negative LIMIT/OFFSET
values raise server-side and are outside this model. -/
def execWrapped (baseRows : List (List Val)) (page page_size : Option Int) :
    List (List Val) :=
  let withCount := baseRows.map (fun r => r ++ [Val.vint baseRows.length])
  match page, page_size with
  | some p, some ps => (withCount.drop ((p - 1) * ps).toNat).take ps.toNat
  | _, _ => withCount

/-- Model of `PostgresConnector._execute_query` (hence of `fetch_all`, which
just forwards to it) on a successfully executed query: `cols` are the
caller's query's column names, `baseRows` its full result set.  The cursor
description of the wrapped query appends `total_count` to the columns.  When
the wrapped query returns no rows, `result.data` is still `None` and the
debug-log f-string evaluates `len(result.data)`, raising `TypeError`.
Otherwise every fetched row (total-count column included) is turned into a
Record, `rows[0][-1]` becomes `total_records`, and pagination metadata is
attached unconditionally (`page or 1`, `page_size or total_`). -/
def executeQueryRun (cols : List String) (baseRows : List (List Val))
    (page page_size : Option Int) : Except PyError PaginatedResponse :=
  let rows := execWrapped baseRows page page_size
  let columns := cols ++ ["total_count"]
  match rows with
  | [] => .error PyError.typeError
  | r0 :: _ =>
    let total_ := Val.toInt (r0.getLastD (Val.vint 0))
    let data := rows.map (fun r => dictZip columns r)
    let pm : PaginationMeta :=
      { page := pyOr page 1
        size := pyOr page_size total_
        total_records := total_
        total_pages := totalPages page_size total_ }
    Except.ok
      { data := some data
        metadata := some { pagination := some pm, links := none } }

/-- pagination_handler.py `PaginationHandler.generate_links`: starts from an
all-`None` `LinksMeta()` and assigns `self`, then `next` (only when
`page < total_pages`), then `prev` (only when `page > 1`). -/
def generateLinks (endpoint : String) (page page_size total_pages : Int) :
    LinksMeta :=
  let links : LinksMeta := {}
  let links := { links with self := some (UrlCall.mk endpoint page page_size) }
  let links :=
    { links with
      next :=
        if page < total_pages then
          some (UrlCall.mk endpoint (page + 1) page_size)
        else none }
  let links :=
    { links with
      prev :=
        if page > 1 then some (UrlCall.mk endpoint (page - 1) page_size)
        else none }
  links

/-- routes.py `create_links`: builds the dict with `self` set and
`next`/`prev` as `None`, then conditionally overwrites `next` and `prev`. -/
def createLinks (endpoint : String) (page page_size total_pages : Int) :
    LinksMeta :=
  let links : LinksMeta :=
    { self := some (UrlCall.mk endpoint page page_size)
      next := none
      prev := none }
  let links :=
    if page < total_pages then
      { links with next := some (UrlCall.mk endpoint (page + 1) page_size) }
    else links
  let links :=
    if page > 1 then
      { links with prev := some (UrlCall.mk endpoint (page - 1) page_size) }
    else links
  links

/-- Observable side effects of one `execute` call: commit count, rollback
count, and whether the cursor is still open. -/
structure PgState where
  commits : Nat
  rollbacks : Nat
  cursorOpen : Bool
deriving DecidableEq, Repr

/-- State before an `execute` call: no commits, no rollbacks, no cursor. -/
def initState : PgState := ⟨0, 0, false⟩

/-- `PostgresConnector.get_cursor` (the `@contextmanager`), run around a
body: opens a cursor, runs the body; a `psycopg2.DatabaseError` escaping the
body is logged, the transaction rolled back and the error re-raised; the
`finally` block closes the cursor on every exit path. -/
def getCursorRun (body : PgState → Except PyError Unit × PgState)
    (s : PgState) : Except PyError Unit × PgState :=
  let s1 := { s with cursorOpen := true }
  let r := body s1
  match r with
  | (.ok u, s2) => (.ok u, { s2 with cursorOpen := false })
  | (.error (PyError.dbError m), s2) =>
    (.error (PyError.dbError m),
      { s2 with rollbacks := s2.rollbacks + 1, cursorOpen := false })
  | (.error e, s2) => (.error e, { s2 with cursorOpen := false })

/-- The `try` block of `PostgresConnector.execute`, with `outcome` standing
for what `cursor.execute(query, params)` does: on success the connection is
committed; a `psycopg2.DatabaseError` is logged, the transaction rolled back,
and the error re-raised; any other exception propagates untouched. -/
def executeBody (outcome : Except PyError Unit) (s : PgState) :
    Except PyError Unit × PgState :=
  match outcome with
  | .ok _ => (.ok (), { s with commits := s.commits + 1 })
  | .error (PyError.dbError m) =>
    (.error (PyError.dbError m), { s with rollbacks := s.rollbacks + 1 })
  | .error e => (.error e, s)

/-- The undecorated function body of `PostgresConnector.execute(query,
params)`: the `try` block above run inside the `get_cursor` context manager.
The public method additionally carries the `@log_method_call` decorator
(line 212); see `executeDecorated`. -/
def executeStmt (outcome : Except PyError Unit) (s : PgState) :
    Except PyError Unit × PgState :=
  getCursorRun (executeBody outcome) s

/-- The `@log_method_call` decorator (logging_decorator.py): on success the
wrapped method's value is returned (the `finally` block logs the bound
`result`); when the wrapped method raises, the `except Exception` block logs
and re-raises, but the `finally` block then evaluates an f-string that reads
`result` — a local assigned only on the success path — so Python raises
`UnboundLocalError` there, which replaces the propagating exception on its
way to the caller (the original error survives only as `__context__`,
modelled as the payload of `PyError.unboundLocal`). -/
def logMethodCall {σ : Type} (body : σ → Except PyError Unit × σ) (s : σ) :
    Except PyError Unit × σ :=
  match body s with
  | (.ok r, s') => (.ok r, s')
  | (.error e, s') => (.error (PyError.unboundLocal e), s')

/-- `PostgresConnector.execute` as callers see it: the transactional body
`executeStmt` wrapped by its `@log_method_call` decorator. -/
def executeDecorated (outcome : Except PyError Unit) (s : PgState) :
    Except PyError Unit × PgState :=
  logMethodCall (executeStmt outcome) s

/-- Connector-side state relevant to `close`: whether `self.conn` holds a
connection, and how many connections sit in the pool's free set. -/
structure CloseState where
  connHeld : Bool
  pooled : Nat
deriving DecidableEq, Repr

/-- `PostgresConnector.close`: a no-op when `self.conn` is `None`; otherwise
`self.pool.putconn(self.conn)` (whose failure is modelled by `putconnErr`)
followed by `self.conn = None`.  A `psycopg2.DatabaseError` from `putconn`
is logged and re-raised, leaving `self.conn` set and the free set
unchanged. -/
def closeOp (putconnErr : Option String) (s : CloseState) :
    Except PyError Unit × CloseState :=
  if s.connHeld then
    match putconnErr with
    | none => (.ok (), { connHeld := false, pooled := s.pooled + 1 })
    | some m => (.error (PyError.dbError m), s)
  else
    (.ok (), s)

/-! ## Helper lemmas -/

/-- Floor division of `a + b - 1` by `b` computes the ceiling of `a / b`. -/
theorem ceil_div_eq_fdiv (a b : Int) (hb : 1 ≤ b) :
    ⌈(a : ℚ) / (b : ℚ)⌉ = Int.fdiv (a + b - 1) b := by
  have hb0 : (0 : Int) < b := hb
  have hbQ : (0 : ℚ) < (b : ℚ) := by exact_mod_cast hb0
  rw [Int.fdiv_eq_ediv _ (by omega : (0 : Int) ≤ b)]
  have hsum : b * ((a + b - 1) / b) + (a + b - 1) % b = a + b - 1 :=
    Int.ediv_add_emod _ _
  have hm0 : 0 ≤ (a + b - 1) % b := Int.emod_nonneg _ (by omega)
  have hm1 : (a + b - 1) % b < b := Int.emod_lt_of_pos _ hb0
  rw [Int.ceil_eq_iff]
  constructor
  · rw [show ((((a + b - 1) / b : Int) : ℚ) - 1) = ((((a + b - 1) / b - 1 : Int)) : ℚ) by push_cast; ring,
      lt_div_iff₀ hbQ]
    have h1 : ((a + b - 1) / b - 1) * b < a := by nlinarith
    exact_mod_cast h1
  · rw [div_le_iff₀ hbQ]
    have h2 : a ≤ ((a + b - 1) / b) * b := by nlinarith
    have h2q : ((a : Int) : ℚ) ≤ ((((a + b - 1) / b) * b : Int) : ℚ) := by
      exact_mod_cast h2
    push_cast at h2q ⊢
    linarith

/-- Every row produced by the wrapped query is a base row with the full base
row count appended as its last column. -/
theorem execWrapped_shape {baseRows : List (List Val)}
    {page page_size : Option Int} {x : List Val}
    (hx : x ∈ execWrapped baseRows page page_size) :
    ∃ r ∈ baseRows, x = r ++ [Val.vint baseRows.length] := by
  unfold execWrapped at hx
  rcases page with _ | p <;> rcases page_size with _ | ps <;>
    simp only [] at hx
  case none.none | none.some | some.none =>
    obtain ⟨r, hr, rfl⟩ := List.mem_map.mp hx
    exact ⟨r, hr, rfl⟩
  case some.some =>
    have hx2 := List.mem_of_mem_drop (List.mem_of_mem_take hx)
    obtain ⟨r, hr, rfl⟩ := List.mem_map.mp hx2
    exact ⟨r, hr, rfl⟩

/-- The last column of the first fetched row is the full base row count. -/
theorem execWrapped_head_count (baseRows : List (List Val))
    (page page_size : Option Int) (r0 : List Val) (rest : List (List Val))
    (hrows : execWrapped baseRows page page_size = r0 :: rest) :
    r0.getLastD (Val.vint 0) = Val.vint baseRows.length := by
  have hr0 : r0 ∈ execWrapped baseRows page page_size := by
    rw [hrows]; exact List.mem_cons_self _ _
  obtain ⟨r, hr, rfl⟩ := execWrapped_shape hr0
  exact List.getLastD_concat _ _ _

/-- Reduction of `executeQueryRun` when the wrapped query fetched at least
one row. -/
theorem executeQueryRun_ok_eq (cols : List String)
    (baseRows : List (List Val)) (page page_size : Option Int)
    (r0 : List Val) (rest : List (List Val))
    (hrows : execWrapped baseRows page page_size = r0 :: rest) :
    executeQueryRun cols baseRows page page_size =
      Except.ok
        { data := some
            ((r0 :: rest).map (fun r => dictZip (cols ++ ["total_count"]) r))
          metadata := some
            { pagination := some
                { page := pyOr page 1
                  size := pyOr page_size (Val.toInt (r0.getLastD (Val.vint 0)))
                  total_records := Val.toInt (r0.getLastD (Val.vint 0))
                  total_pages :=
                    totalPages page_size
                      (Val.toInt (r0.getLastD (Val.vint 0))) }
              links := none } } := by
  unfold executeQueryRun
  rw [hrows]

/-! ## Claim theorems -/

/-- C3: the claim says a zero-row query returns normally with empty data and
no metadata; the code instead evaluates `len(result.data)` with
`result.data = None` inside the debug-log f-string and raises `TypeError`,
with or without pagination arguments.  This theorem evaluates the model at
the failing input: for an empty underlying result set the call errors. -/
theorem c3_zero_rows_type_error (cols : List String)
    (page page_size : Option Int) :
    executeQueryRun cols [] page page_size = Except.error PyError.typeError := by
  rcases page with _ | p <;> rcases page_size with _ | ps <;>
    simp [executeQueryRun, execWrapped]

/-- C4: with both `page` and `page_size` supplied, the executed SQL is the
caller's query wrapped as a subquery projecting its columns plus
`COUNT(*) OVER () AS total_count`, with `LIMIT %s OFFSET %s` applied to the
wrapped relation (the only two placeholders added by the rewrite), and the
parameter tuple is the caller's parameters followed by `page_size`, then
`offset = (page - 1) * page_size`, in that order. -/
theorem c4_pagination_rewrite (q : String) (params : List SqlParam)
    (p ps : Int) :
    buildQuery q (some p) (some ps) = wrapBefore ++ q ++ pagAfter ∧
    wrapBefore =
      "\n                WITH t AS (\n                    SELECT *, COUNT(*) OVER () AS total_count\n                    FROM (" ∧
    pagAfter =
      ") AS subquery\n                    " ++ "LIMIT %s OFFSET %s" ++
        "\n                )\n                SELECT * FROM t\n            " ∧
    sqlPlaceholders wrapBefore = 0 ∧
    sqlPlaceholders pagAfter = 2 ∧
    buildParams params (some p) (some ps) =
      params ++ [SqlParam.int ps, SqlParam.int ((p - 1) * ps)] :=
  ⟨rfl, rfl, rfl, rfl, rfl, rfl⟩

/-- C10: when exactly one of `page` and `page_size` is supplied, the
unpaginated path is taken: the executed SQL is the same total-count wrapper
as with neither supplied, containing no LIMIT or OFFSET clause and no added
placeholder, the caller's parameters are passed through unchanged, and the
whole wrapped result set is fetched (the supplied value has no limiting
effect). -/
theorem c10_single_arg_unpaginated (q : String) (params : List SqlParam)
    (p ps : Int) (baseRows : List (List Val)) :
    buildQuery q (some p) none = wrapBefore ++ q ++ unpagAfter ∧
    buildQuery q none (some ps) = wrapBefore ++ q ++ unpagAfter ∧
    buildQuery q (some p) none = buildQuery q none none ∧
    buildQuery q none (some ps) = buildQuery q none none ∧
    buildParams params (some p) none = params ∧
    buildParams params none (some ps) = params ∧
    hasSub "LIMIT".data unpagAfter.data = false ∧
    hasSub "OFFSET".data unpagAfter.data = false ∧
    hasSub "LIMIT".data wrapBefore.data = false ∧
    hasSub "OFFSET".data wrapBefore.data = false ∧
    sqlPlaceholders unpagAfter = 0 ∧
    execWrapped baseRows (some p) none =
      baseRows.map (fun r => r ++ [Val.vint baseRows.length]) ∧
    execWrapped baseRows none (some ps) =
      baseRows.map (fun r => r ++ [Val.vint baseRows.length]) ∧
    (execWrapped baseRows (some p) none).length = baseRows.length := by
  refine ⟨rfl, rfl, rfl, rfl, rfl, rfl, by decide, by decide, by decide,
    by decide, rfl, rfl, rfl, ?_⟩
  simp [execWrapped]

/-- The undecorated body of `execute` does behave transactionally: starting
from a clean state, a successful statement is committed exactly once (and
never rolled back), a `DatabaseError` triggers a rollback (once in
`execute`'s handler and once more in `get_cursor`'s) and propagates out of
the body unchanged, and the cursor is closed on every exit path. -/
theorem executeStmt_inner_transaction :
    executeStmt (Except.ok ()) initState =
      (Except.ok (), ⟨1, 0, false⟩) ∧
    (∀ m : String,
      executeStmt (Except.error (PyError.dbError m)) initState =
        (Except.error (PyError.dbError m), ⟨0, 2, false⟩)) ∧
    (∀ e : PyError,
      (executeStmt (Except.error e) initState).1 = Except.error e ∧
      (executeStmt (Except.error e) initState).2.cursorOpen = false) := by
  refine ⟨rfl, fun m => rfl, fun e => ?_⟩
  cases e <;> exact ⟨rfl, rfl⟩

/-- C7: the claim says that on a database error the error is re-raised
unchanged to the caller.  The inner body does commit on success, roll back
on a database error and close the cursor on every path, but the
`@log_method_call` decorator on `execute` (postgres_connector.py line 212)
reads the unbound local `result` in its `finally` block on the error path,
so what reaches the caller is `UnboundLocalError` — with the
`DatabaseError` demoted to its `__context__` — never the database error
itself.  This theorem evaluates the decorated method at the failing input:
for every database error message, the call's outcome is the masking
`UnboundLocalError` (rollback and cursor release still having happened),
not the original error; the success path is unaffected. -/
theorem c7_decorator_masks_db_error :
    (∀ m : String,
      executeDecorated (Except.error (PyError.dbError m)) initState =
        (Except.error (PyError.unboundLocal (PyError.dbError m)),
          ⟨0, 2, false⟩) ∧
      (executeDecorated (Except.error (PyError.dbError m)) initState).1 ≠
        Except.error (PyError.dbError m)) ∧
    executeDecorated (Except.ok ()) initState =
      (Except.ok (), ⟨1, 0, false⟩) := by
  refine ⟨fun m => ⟨rfl, ?_⟩, rfl⟩
  intro h
  injection h with h2
  exact PyError.noConfusion h2

/-- C8 counterexample: the claim says `close` never raises; but when
returning the connection to the pool fails, `close` re-raises the
`DatabaseError` (and does not complete normally). -/
theorem c8_close_counterexample :
    (closeOp (some "pool integrity violation") ⟨true, 0⟩).1 =
      Except.error (PyError.dbError "pool integrity violation") ∧
    (closeOp (some "pool integrity violation") ⟨true, 0⟩).1 ≠
      Except.ok () :=
  ⟨rfl, fun h => Except.noConfusion h⟩

/-- C8 amended: `close` is a no-op when no connection is held; on success it
returns the connection to the free set and clears the reference; when
returning the connection fails, the error is logged and re-raised to the
caller, and the connection is neither added to the free set nor cleared
(the connector state is left unchanged). -/
theorem c8_close_release (m : String) (s : CloseState) :
    closeOp (some m) s =
      (if s.connHeld then (Except.error (PyError.dbError m), s)
       else (Except.ok (), s)) ∧
    closeOp none s =
      (Except.ok (),
        if s.connHeld then { connHeld := false, pooled := s.pooled + 1 }
        else s) := by
  unfold closeOp
  by_cases h : s.connHeld <;> simp [h]

/-- C5 counterexample: the claim says that when `page_size` is absent the
computed `total_pages` is `0` for `total_records = 0`; the code's formula
(`... if page_size else 1`) yields `1` there. -/
theorem c5_total_pages_counterexample :
    totalPages none 0 = 1 ∧ totalPages none 0 ≠ 0 :=
  ⟨rfl, by decide⟩

/-- C5 amended: for `page_size >= 1` the computed `total_pages` equals
`ceil(total_records / page_size)` (hence `0` when `total_records = 0`);
when `page_size` is absent the formula yields `1` regardless of
`total_records` (the code, however, only evaluates it when at least one row
was returned, so `total_records = 0` never reaches this branch). -/
theorem c5_total_pages_ceil :
    (∀ ps total : Int, 1 ≤ ps →
      totalPages (some ps) total = ⌈(total : ℚ) / (ps : ℚ)⌉) ∧
    (∀ total : Int, totalPages none total = 1) := by
  constructor
  · intro ps total hps
    simp only [totalPages]
    rw [if_neg (by omega : ¬ ps = 0)]
    exact (ceil_div_eq_fdiv total ps hps).symm
  · intro total
    rfl

/-- C5 witness: the amended theorem applied at `page_size = 5`,
`total_records = 12`, where the formula evaluates to `3 = ceil(12/5)`. -/
theorem c5_total_pages_witness :
    (1 : Int) ≤ 5 ∧
    totalPages (some 5) 12 = ⌈(12 : ℚ) / (5 : ℚ)⌉ ∧
    totalPages (some 5) 12 = 3 :=
  ⟨by norm_num, c5_total_pages_ceil.1 5 12 (by norm_num), by decide⟩

/-- C6: both `PaginationHandler.generate_links` and routes' `create_links`
always produce a `self` link, omit `next` exactly when
`page >= total_pages`, omit `prev` exactly when `page <= 1`, and when
present `next` points to `page + 1` and `prev` to `page - 1`, with the same
`size` parameter; the two implementations agree. -/
theorem c6_generate_links (e : String) (p ps tp : Int) :
    (generateLinks e p ps tp).self = some (UrlCall.mk e p ps) ∧
    ((generateLinks e p ps tp).next = none ↔ tp ≤ p) ∧
    ((generateLinks e p ps tp).prev = none ↔ p ≤ 1) ∧
    ((generateLinks e p ps tp).next =
      if p < tp then some (UrlCall.mk e (p + 1) ps) else none) ∧
    ((generateLinks e p ps tp).prev =
      if 1 < p then some (UrlCall.mk e (p - 1) ps) else none) ∧
    createLinks e p ps tp = generateLinks e p ps tp := by
  have hg : generateLinks e p ps tp =
      { self := some (UrlCall.mk e p ps)
        next := if p < tp then some (UrlCall.mk e (p + 1) ps) else none
        prev := if p > 1 then some (UrlCall.mk e (p - 1) ps) else none } := rfl
  rw [hg]
  refine ⟨rfl, ?_, ?_, rfl, rfl, ?_⟩
  · split_ifs with h <;> simp <;> omega
  · split_ifs with h <;> simp <;> omega
  · unfold createLinks
    by_cases h1 : p < tp <;> by_cases h2 : p > 1 <;> simp [h1, h2]

/-- C1 counterexample: for the one-column query result `{id: 7}` fetched
without pagination arguments, the returned Record carries the injected
`total_count` column in addition to `id` — its column list is not exactly
the original query's columns, so the claim fails as stated. -/
theorem c1_total_count_counterexample :
    ((executeQueryRun ["id"] [[Val.vint 7]] none none).toOption.bind
        PaginatedResponse.data) =
      some [[("id", Val.vint 7), ("total_count", Val.vint 1)]] ∧
    [[("id", Val.vint 7), ("total_count", Val.vint 1)]].map
        (fun r => r.map Prod.fst) ≠ [["id"]] :=
  ⟨rfl, by decide⟩

/-- C1 amended: the injected window total-count column (the last column of
each raw row) is used to populate `total_records`, but it is NOT stripped
from the returned records: every Record is built by zipping the wrapped
query's column list — the original columns plus `total_count` — with the raw
row, so the caller sees the extra `total_count` column. -/
theorem c1_total_count_exposed (cols : List String)
    (baseRows : List (List Val)) (page page_size : Option Int)
    (resp : PaginatedResponse)
    (h : executeQueryRun cols baseRows page page_size = Except.ok resp) :
    resp.data = some
      ((execWrapped baseRows page page_size).map
        (fun r => dictZip (cols ++ ["total_count"]) r)) ∧
    ∃ pm : PaginationMeta,
      resp.metadata = some { pagination := some pm, links := none } ∧
      pm.total_records = (baseRows.length : Int) := by
  cases hrows : execWrapped baseRows page page_size with
  | nil =>
    have hbad : executeQueryRun cols baseRows page page_size =
        Except.error PyError.typeError := by
      unfold executeQueryRun
      rw [hrows]
    rw [hbad] at h
    exact absurd h (fun h => Except.noConfusion h)
  | cons r0 rest =>
    rw [executeQueryRun_ok_eq cols baseRows page page_size r0 rest hrows] at h
    injection h with h
    subst h
    refine ⟨rfl, _, rfl, ?_⟩
    have hcount := execWrapped_head_count baseRows page page_size r0 rest hrows
    simp only [hcount, Val.toInt]

/-- C1 witness: the amended theorem applied to the concrete run of the
counterexample input. -/
theorem c1_total_count_witness :
    ({ data := some [[("id", Val.vint 7), ("total_count", Val.vint 1)]]
       metadata := some
         { pagination := some ⟨1, 1, 1, 1⟩, links := none } } :
        PaginatedResponse).data =
      some ((execWrapped [[Val.vint 7]] none none).map
        (fun r => dictZip (["id"] ++ ["total_count"]) r)) ∧
    ∃ pm : PaginationMeta,
      ({ data := some [[("id", Val.vint 7), ("total_count", Val.vint 1)]]
         metadata := some
           { pagination := some ⟨1, 1, 1, 1⟩, links := none } } :
          PaginatedResponse).metadata = some { pagination := some pm, links := none } ∧
      pm.total_records = (([[Val.vint 7]] : List (List Val)).length : Int) :=
  c1_total_count_exposed ["id"] [[Val.vint 7]] none none _ rfl

/-- C2 counterexample: a call with `page` and `page_size` both omitted, whose
query returns one row, still carries pagination metadata — the claim's
"only if both supplied" direction fails. -/
theorem c2_pagination_iff_counterexample :
    ((executeQueryRun ["id"] [[Val.vint 7]] none none).toOption.bind
        PaginatedResponse.metadata).bind MetaModel.pagination ≠ none := by
  decide

/-- C2 amended: `metadata.pagination` is present on every call of
`fetch_all` that returns normally — equivalently, whenever the executed
query returned at least one row — regardless of whether `page` and
`page_size` were supplied; there is no pagination-free normal result (a
zero-row query raises instead of returning). -/
theorem c2_pagination_always_present (cols : List String)
    (baseRows : List (List Val)) (page page_size : Option Int)
    (resp : PaginatedResponse)
    (h : executeQueryRun cols baseRows page page_size = Except.ok resp) :
    ∃ m : MetaModel, ∃ pm : PaginationMeta,
      resp.metadata = some m ∧ m.pagination = some pm := by
  cases hrows : execWrapped baseRows page page_size with
  | nil =>
    have hbad : executeQueryRun cols baseRows page page_size =
        Except.error PyError.typeError := by
      unfold executeQueryRun
      rw [hrows]
    rw [hbad] at h
    exact absurd h (fun h => Except.noConfusion h)
  | cons r0 rest =>
    rw [executeQueryRun_ok_eq cols baseRows page page_size r0 rest hrows] at h
    injection h with h
    subst h
    exact ⟨_, _, rfl, rfl⟩

/-- C2 witness: the amended theorem applied to a concrete one-row run with
pagination requested. -/
theorem c2_pagination_witness :
    ∃ m : MetaModel, ∃ pm : PaginationMeta,
      ({ data := some [[("x", Val.vint 5), ("total_count", Val.vint 1)]]
         metadata := some
           { pagination := some ⟨1, 5, 1, 1⟩, links := none } } :
          PaginatedResponse).metadata = some m ∧ m.pagination = some pm :=
  c2_pagination_always_present ["x"] [[Val.vint 5]] (some 1) (some 5) _ rfl

/-- Inserting a key not present in the dict appends the pair. -/
theorem dictInsert_fresh {α : Type} (d : List (String × α)) (k : String)
    (v : α) (h : ∀ q ∈ d, q.1 ≠ k) : dictInsert d k v = d ++ [(k, v)] := by
  unfold dictInsert
  rw [if_neg]
  simp only [List.any_eq_true, decide_eq_true_eq, not_exists, not_and]
  exact fun q hq => h q hq

/-- Folding fresh, pairwise-distinct keys into a dict appends the pairs in
order. -/
theorem foldl_dictInsert_fresh {α : Type} :
    ∀ (ps : List (String × α)) (d : List (String × α)),
      (∀ x ∈ ps, ∀ y ∈ d, x.1 ≠ y.1) → (ps.map Prod.fst).Nodup →
      ps.foldl (fun acc q => dictInsert acc q.1 q.2) d = d ++ ps := by
  intro ps
  induction ps with
  | nil => intro d _ _; simp
  | cons p rest ih =>
    intro d hfresh hnd
    have hhead : ∀ q ∈ d, q.1 ≠ p.1 := fun q hq =>
      (hfresh p (List.mem_cons_self _ _) q hq).symm
    have hndtail : (rest.map Prod.fst).Nodup :=
      (List.nodup_cons.mp (by simpa using hnd)).2
    have hpnot : p.1 ∉ rest.map Prod.fst :=
      (List.nodup_cons.mp (by simpa using hnd)).1
    simp only [List.foldl_cons]
    rw [dictInsert_fresh d p.1 p.2 hhead]
    rw [ih (d ++ [p]) ?_ hndtail]
    · simp
    · intro x hx y hy
      rcases List.mem_append.mp hy with hyd | hyp
      · exact hfresh x (List.mem_cons_of_mem _ hx) y hyd
      · have : y = p := by simpa using hyp
        subst this
        intro hcontra
        exact hpnot (hcontra ▸ List.mem_map_of_mem Prod.fst hx)

/-- With pairwise-distinct column names (and at least as many row values),
`dict(zip(columns, row))` is just the zipped association list. -/
theorem dictZip_eq_zip {α : Type} (cols : List String) (row : List α)
    (hnd : cols.Nodup) (hlen : cols.length ≤ row.length) :
    dictZip cols row = cols.zip row := by
  unfold dictZip
  rw [foldl_dictInsert_fresh (cols.zip row) [] (by simp) ?_]
  · simp
  · rw [List.map_fst_zip _ _ hlen]
    exact hnd

/-- Reading the zipped association list back in column order recovers the
row values, provided the column names are pairwise distinct. -/
theorem map_dictGet_zip {α : Type} :
    ∀ (cols : List String) (row : List α), cols.Nodup →
      cols.length = row.length →
      cols.map (fun c => dictGet (cols.zip row) c) = row.map some := by
  intro cols
  induction cols with
  | nil =>
    intro row _ hlen
    cases row with
    | nil => simp
    | cons v vs => simp at hlen
  | cons c cs ih =>
    intro row hnd hlen
    cases row with
    | nil => simp at hlen
    | cons v vs =>
      have hcnot : c ∉ cs := (List.nodup_cons.mp hnd).1
      have hndtail : cs.Nodup := (List.nodup_cons.mp hnd).2
      have hlen' : cs.length = vs.length := by simpa using hlen
      have hstep : ∀ c' ∈ cs,
          dictGet ((c, v) :: cs.zip vs) c' = dictGet (cs.zip vs) c' := by
        intro c' hc'
        have hne : ¬ c = c' := fun h => hcnot (h ▸ hc')
        simp [dictGet, List.find?_cons_of_neg, hne]
      simp only [List.zip_cons_cons, List.map_cons]
      rw [List.map_congr_left hstep, ih vs hndtail hlen']
      simp [dictGet]

/-- C9 counterexample: the row factory's round-trip fails for a
column-description list with a repeated name: for columns `["a", "a"]` and
row `(1, 2)` (of equal length, as the claim requires), the dict collapses
the duplicate key, and reading back in column order yields `[2, 2]`, not the
original values. -/
theorem c9_roundtrip_counterexample :
    (["a", "a"] : List String).length =
      ([Val.vint 1, Val.vint 2] : List Val).length ∧
    ["a", "a"].map
        (fun c => dictGet (dictZip ["a", "a"] [Val.vint 1, Val.vint 2]) c) ≠
      [Val.vint 1, Val.vint 2].map some :=
  ⟨rfl, by decide⟩

/-- C9 amended: for every column-description list with pairwise-distinct
names and every row tuple of the same length, the Record built by the row
factory (zipping ordered column names with the row's ordered values), read
back in the same column order, yields exactly the original row's values. -/
theorem c9_roundtrip_nodup {α : Type} (cols : List String) (row : List α)
    (hnd : cols.Nodup) (hlen : cols.length = row.length) :
    cols.map (fun c => dictGet (dictZip cols row) c) = row.map some := by
  rw [dictZip_eq_zip cols row hnd (le_of_eq hlen)]
  exact map_dictGet_zip cols row hnd hlen

/-- C9 witness: the amended round-trip at a concrete two-column record. -/
theorem c9_roundtrip_witness :
    (["id", "username"] : List String).Nodup ∧
    (["id", "username"] : List String).length =
      ([Val.vint 1, Val.vstr "bob"] : List Val).length ∧
    ["id", "username"].map
        (fun c =>
          dictGet (dictZip ["id", "username"] [Val.vint 1, Val.vstr "bob"]) c) =
      [Val.vint 1, Val.vstr "bob"].map some :=
  ⟨by decide, by decide,
    c9_roundtrip_nodup ["id", "username"] [Val.vint 1, Val.vstr "bob"]
      (by decide) (by decide)⟩
